import Mathlib

/-!
Verification of the `vaadin-combo-box-dropdown` element
(`src/packages/grid/src/vaadin-grid-selection-mixin.d.ts`, second embedded
document: class `ComboBoxDropdown`) and the repository's combo-box helpers
(`src/unnamed/part_002`).

The component is a synchronous, single-threaded Polymer element.  We embed
its state and the bodies of its methods/observers as pure Lean functions:
property assignments become state transitions, Polymer's synchronous
observer dispatch becomes direct function calls inside the transition, and
dispatched DOM events become an explicit event list returned alongside the
new state.
-/

namespace ComboBoxDropdown

/-! ## A model of the JavaScript values the dropdown manipulates

Items are opaque JS values (`Item: an opaque value of arbitrary shape`).
We model the fragment of JS values the code inspects: `undefined`, `null`,
booleans, (integer) numbers, strings and objects.  An object carries its
named fields and the string its `toString()` method produces. -/

inductive JSValue where
  | undefined : JSValue
  | null : JSValue
  | bool : Bool → JSValue
  | num : Int → JSValue
  | str : String → JSValue
  | obj : List (String × JSValue) → String → JSValue
deriving Repr

/-- JS truthiness: `undefined`, `null`, `false`, `0` and `""` are falsy;
every object is truthy. -/
def truthy : JSValue → Bool
  | .undefined => false
  | .null => false
  | .bool b => b
  | .num n => n != 0
  | .str s => s != ""
  | .obj _ _ => true

/-- JS `.toString()` on a value.  The dropdown only ever invokes it behind a
truthiness / non-null guard, so `undefined`/`null` cases are unreachable in the
embedded code paths; we make the function total with the JS string-coercion
results there. -/
def jsToString : JSValue → String
  | .undefined => "undefined"
  | .null => "null"
  | .bool b => if b then "true" else "false"
  | .num n => toString n
  | .str s => s
  | .obj _ ts => ts

/-- Splitting a path string on `'.'`, as Polymer's path parser does
(`path.split('.')`). -/
def splitOnDotAux : List Char → List Char → List String
  | [], acc => [String.mk acc.reverse]
  | c :: rest, acc =>
    if c = '.' then String.mk acc.reverse :: splitOnDotAux rest []
    else splitOnDotAux rest (c :: acc)

def splitOnDot (s : String) : List String := splitOnDotAux s.toList []

/-- JS `String.prototype.toLowerCase`, modelled as character-wise lowering. -/
def jsToLower (s : String) : String := String.mk (s.toList.map Char.toLower)

/-- JS property read `v[name]`: field lookup on objects, `undefined` on a
missing field or a non-object. -/
def getProp (v : JSValue) (name : String) : JSValue :=
  match v with
  | .obj fields _ =>
    match fields.lookup name with
    | some w => w
    | none => .undefined
  | _ => .undefined

/-- Polymer's `get(path, root)`: splits the path on `.` and walks the
segments, returning `undefined` as soon as the current value is falsy
(Polymer checks `if (!prop) return undefined` before each step), so it
never throws. -/
def polyGet (path : String) (root : JSValue) : JSValue :=
  (splitOnDot path).foldl
    (fun acc part => if truthy acc then getProp acc part else .undefined) root

/-! ## `getItemLabel`

```js
getItemLabel(item, itemLabelPath) {
  itemLabelPath = itemLabelPath || this._itemLabelPath;
  let label = item && itemLabelPath ? this.get(itemLabelPath, item) : undefined;
  if (label === undefined || label === null) {
    label = item ? item.toString() : '';
  }
  return label;
}
```

`labelPathProp` is the element's `_itemLabelPath` property (a string,
default `'label'`); `pathArg` is the optional second argument (`none` when
the caller passes one argument, as `indexOfLabel` does). -/

/-- The first line `itemLabelPath = itemLabelPath || this._itemLabelPath`:
the argument when it is a truthy (non-empty) string, the `_itemLabelPath`
property otherwise. -/
def effLabelPath (labelPathProp : String) (pathArg : Option String) : String :=
  match pathArg with
  | some p => if p != "" then p else labelPathProp
  | none => labelPathProp

def getItemLabel (labelPathProp : String) (pathArg : Option String)
    (item : JSValue) : JSValue :=
  let itemLabelPath : String := effLabelPath labelPathProp pathArg
  let label : JSValue :=
    if truthy item && itemLabelPath != "" then polyGet itemLabelPath item
    else .undefined
  match label with
  | .undefined => if truthy item then .str (jsToString item) else .str ""
  | .null => if truthy item then .str (jsToString item) else .str ""
  | v => v

/-! ## `indexOfLabel`

```js
indexOfLabel(label) {
  if (this._items && label) {
    for (let i = 0; i < this._items.length; i++) {
      if (this.getItemLabel(this._items[i]).toString().toLowerCase()
          === label.toString().toLowerCase()) {
        return i;
      }
    }
  }
  return -1;
}
```

`_items` may be undefined (`none`); a JS array — even an empty one — is
truthy, so the outer guard only tests definedness of `_items` and
truthiness of `label`. -/

/-- The resolved, lower-cased label of an item, as compared by the loop body
of `indexOfLabel`. -/
def lowerLabelOf (labelPathProp : String) (item : JSValue) : String :=
  jsToLower (jsToString (getItemLabel labelPathProp none item))

/-- The `for` loop of `indexOfLabel`, scanning from index `i`. -/
def indexOfLabelLoop (labelPathProp : String) (target : String)
    (i : Nat) : List JSValue → Int
  | [] => -1
  | item :: rest =>
    if lowerLabelOf labelPathProp item == target then (i : Int)
    else indexOfLabelLoop labelPathProp target (i + 1) rest

def indexOfLabel (labelPathProp : String) (items : Option (List JSValue))
    (label : JSValue) : Int :=
  match items with
  | some l =>
    if truthy label then
      indexOfLabelLoop labelPathProp (jsToLower (jsToString label)) 0 l
    else -1
  | none => -1

/-! ## Dropdown state and the open/close observers

Relevant properties of the element (their Polymer declarations):
`opened : Boolean` (no default, so initially `undefined` — modelled as
`Option Bool`, `none` = undefined), `loading : Boolean` default `false`,
`_items : Array` (no default — `Option (List JSValue)`),
`_overlayOpened : Boolean` (no default) with single-property observer
`_openedChanged`, and `_focusedIndex : Number` default `-1`.
`__emptyItems` is a plain instance field, initially undefined (falsy),
modelled as a `Bool` starting `false`.

Polymer property assignment runs observers synchronously, and a
single-property observer fires exactly when the new value differs from the
old (`!==`); `_openedChanged(opened, wasOpened)` receives the old value
(`undefined` on the first assignment, which is falsy — firing the observer
with `wasOpened = false` is observationally identical, which is how the
`none` case is modelled below). -/

/-- Events the dropdown dispatches on itself. -/
inductive DEvent where
  | dropdownOpened
  | dropdownClosed
deriving Repr, DecidableEq

structure DState where
  opened : Option Bool := none
  loading : Bool := false
  items : Option (List JSValue) := none
  overlayOpened : Option Bool := none
  emptyItems : Bool := false
  focusedIndex : Int := -1
deriving Repr

/-- The element's state right after property defaults are installed. -/
def initDState : DState := {}

/-- Truthiness of a possibly-undefined boolean property. -/
def ovTruthy : Option Bool → Bool
  | some b => b
  | none => false

/-- `items && items.length` is truthy iff the array is present and
non-empty (an absent `_items` is `undefined`, hence falsy). -/
def hasItems : Option (List JSValue) → Bool
  | some l => !l.isEmpty
  | none => false

/-- The `_overlayOpened` observer
```js
_openedChanged(opened, wasOpened) {
  if (opened) {
    ... // _setOverlayWidth, scroller max-height
    this.dispatchEvent(new CustomEvent('vaadin-combo-box-dropdown-opened', ...));
  } else if (wasOpened && !this.__emptyItems) {
    this.dispatchEvent(new CustomEvent('vaadin-combo-box-dropdown-closed', ...));
  }
}
```
returning the events it dispatches (it reads `this.__emptyItems` from the
state current at dispatch time). -/
def _openedChanged (s : DState) (opened wasOpened : Bool) : List DEvent :=
  if opened then [DEvent.dropdownOpened]
  else if wasOpened && !s.emptyItems then [DEvent.dropdownClosed]
  else []

/-- The assignment `this._overlayOpened = v`: stores the value, then fires
`_openedChanged(v, old)` iff the value changed (`undefined → v` counts as a
change, with a falsy `wasOpened`). -/
def setOverlayOpened (s : DState) (v : Bool) : DState × List DEvent :=
  match s.overlayOpened with
  | some old =>
    if old = v then ({ s with overlayOpened := some v }, [])
    else
      let s' := { s with overlayOpened := some v }
      (s', _openedChanged s' v old)
  | none =>
    let s' := { s with overlayOpened := some v }
    (s', _openedChanged s' v false)

/-- The complex observer
```js
_openedOrItemsChanged(opened, items, loading) {
  const hasItems = items && items.length;
  if (!hasItems) {
    this.__emptyItems = true;
  }
  this._overlayOpened = !!(opened && (loading || hasItems));
  this.__emptyItems = false;
}
```
The assignment to `_overlayOpened` synchronously runs `_openedChanged`
(which sees the just-set `__emptyItems`); the flag is reset afterwards. -/
def _openedOrItemsChanged (s : DState) : DState × List DEvent :=
  let hasIt := hasItems s.items
  let s1 := if hasIt then s else { s with emptyItems := true }
  let newOv := ovTruthy s1.opened && (s1.loading || hasIt)
  let r := setOverlayOpened s1 newOv
  ({ r.1 with emptyItems := false }, r.2)

/-- External property writes reaching the dropdown from the host combo
box: its bindings set `opened`, `loading` and `_items`. -/
inductive DOp where
  | setOpened (b : Bool)
  | setLoading (b : Bool)
  | setItems (v : Option (List JSValue))

/-- Applying one property write.  For the scalar `Boolean` properties
Polymer skips effects when the value is unchanged (`!==`); for `_items`
the host always binds a fresh array object (or `undefined`), so any write
of an array re-runs the observer, and only a write of `undefined` over
`undefined` is identity. -/
def applyOp (s : DState) : DOp → DState × List DEvent
  | .setOpened b =>
    if s.opened = some b then (s, [])
    else _openedOrItemsChanged { s with opened := some b }
  | .setLoading b =>
    if s.loading = b then (s, [])
    else _openedOrItemsChanged { s with loading := b }
  | .setItems v =>
    match s.items, v with
    | none, none => (s, [])
    | _, _ => _openedOrItemsChanged { s with items := v }

/-- States reachable from construction by any sequence of property
writes. -/
inductive Reachable : DState → Prop where
  | init : Reachable initDState
  | step {s : DState} (op : DOp) : Reachable s → Reachable (applyOp s op).1

/-! ## `_getFocusedItem`

```js
_getFocusedItem(focusedIndex) {
  if (focusedIndex >= 0) {
    return this._items[focusedIndex];
  }
}
```
The computing function for the `focusedItem` property.  Falling off the end
of the function returns `undefined`; a JS array read out of bounds is also
`undefined`.  (The body reads `this._items` directly; `items` here is that
array.) -/

def _getFocusedItem (items : List JSValue) (focusedIndex : Int) : JSValue :=
  if focusedIndex ≥ 0 then
    match items.get? focusedIndex.toNat with
    | some v => v
    | none => .undefined
  else .undefined

/-! ## `_forwardScrollerEvent`

```js
_forwardScrollerEvent(event) {
  this.dispatchEvent(new CustomEvent(event.type, { detail: event.detail }));
}
```
Installed in `ready()` as the listener for the scroller's
`selection-changed` and `index-requested` events. -/

/-- A dispatched DOM `CustomEvent`, as far as the relay is concerned:
its type string and its `detail` payload (held by reference — the relay
passes the very same value through). -/
structure ScrollerEvent where
  type : String
  detail : JSValue
deriving Repr

def _forwardScrollerEvent (event : ScrollerEvent) : ScrollerEvent :=
  { type := event.type, detail := event.detail }

/-- The relay applied to a whole sequence of scroller events, in dispatch
order (DOM dispatch is synchronous, so re-dispatches happen one by one in
the order the scroller emitted them). -/
def forwardAll (events : List ScrollerEvent) : List ScrollerEvent :=
  events.map _forwardScrollerEvent

/-! ## `__updateScroller`

```js
__updateScroller(scroller, items, opened, loading, selectedItem, itemIdPath,
                 focusedIndex, renderer, theme) {
  if (scroller) {
    scroller.setProperties({
      items: opened ? items : [],
      opened, loading, selectedItem, itemIdPath, focusedIndex, ...
    });
  }
}
```
We record the property bag pushed to the scroller (`none` when the scroller
is absent and nothing is pushed). -/

structure ScrollerProps where
  items : Option (List JSValue)
  opened : Option Bool
  loading : Bool
  focusedIndex : Int
deriving Repr

def updateScroller (scrollerPresent : Bool) (items : Option (List JSValue))
    (opened : Option Bool) (loading : Bool) (focusedIndex : Int) :
    Option ScrollerProps :=
  if scrollerPresent then
    some
      { items := if ovTruthy opened then items else some []
        opened := opened
        loading := loading
        focusedIndex := focusedIndex }
  else none

/-! ## `_scrollIntoView` and the virtualizer's `scrollToIndex`

```js
_scrollIntoView(index) {
  if (!this._scroller) {
    return;
  }
  this._scroller.scrollIntoView(index);
}
```
The scroller is modelled by the last index it was asked to scroll to. -/

structure Scroller where
  scrolledTo : Option Int := none
deriving Repr

def _scrollIntoView (scroller : Option Scroller) (index : Int) :
    Option Scroller :=
  match scroller with
  | none => none
  | some sc => some { sc with scrolledTo := some index }

/-- Modelled from the spec: the virtualizer's `scrollToIndex` (reached from
the repository's test helper `scrollToIndex` in `src/unnamed/part_002`,
`comboBox.$.dropdown._scroller.__virtualizer.scrollToIndex(index)`).  The
virtualizer implementation itself is not in the source snapshot — only its
callers are — so, per the spec, the target index is clamped to the nearest
valid index of `[0, N)` and the call never throws (total function). -/
def scrollToIndex (N : Nat) (i : Int) : Int :=
  if N = 0 then 0 else max 0 (min i ((N : Int) - 1))

/-! ## `_setOverlayWidth`

```js
_setOverlayWidth() {
  if (!this.positionTarget) {
    return;
  }
  const inputWidth = this.positionTarget.clientWidth + 'px';
  const propPrefix = `${this.__hostTagName}-overlay`;
  const customWidth = getComputedStyle(this).getPropertyValue(`--${propPrefix}-width`);

  this.$.overlay.style.setProperty(`--_${propPrefix}-default-width`, inputWidth);

  if (customWidth === '') {
    this.$.overlay.style.removeProperty(`--${propPrefix}-width`);
  } else {
    this.$.overlay.style.setProperty(`--${propPrefix}-width`, customWidth);
  }

  this.$.overlay._updatePosition();
}
```
The overlay's inline style is modelled by the two custom properties the
method writes: the default-width property and the width override. -/

structure OverlayStyle where
  defaultWidth : Option String := none
  widthOverride : Option String := none
deriving Repr

/-- The environment `_setOverlayWidth` reads: the position target (with its
`clientWidth`) when present, and the computed value of the
`--<host>-overlay-width` custom property on the dropdown
(`getComputedStyle(...).getPropertyValue` returns `''` when the property is
not set). -/
structure WidthEnv where
  positionTargetWidth : Option Nat
  customWidth : String
deriving Repr

def _setOverlayWidth (env : WidthEnv) (ov : OverlayStyle) : OverlayStyle :=
  match env.positionTargetWidth with
  | none => ov
  | some cw =>
    let inputWidth := toString cw ++ "px"
    let ov1 := { ov with defaultWidth := some inputWidth }
    if env.customWidth = "" then { ov1 with widthOverride := none }
    else { ov1 with widthOverride := some env.customWidth }

/-- Modelled from the spec: how the overlay resolves its width from the two
custom properties (`prefers an explicit override custom property if set and
non-empty; otherwise mirrors anchor's client width`) — the CSS
`var(--override, var(--default))` fallback lives in the overlay component,
which is not in the source snapshot. -/
def effectiveWidth (ov : OverlayStyle) : Option String :=
  match ov.widthOverride with
  | some w => some w
  | none => ov.defaultWidth

/-! ## Invariant machinery for the open/close state machine -/

/-- The quiescent-state invariant: outside an observer run the one-shot
`__emptyItems` flag is clear, and `_overlayOpened` tracks
`opened && (loading || hasItems)`. -/
def StateInv (s : DState) : Prop :=
  s.emptyItems = false ∧
  ovTruthy s.overlayOpened = (ovTruthy s.opened && (s.loading || hasItems s.items))

theorem setOverlayOpened_fst (s : DState) (v : Bool) :
    (setOverlayOpened s v).1 = { s with overlayOpened := some v } := by
  unfold setOverlayOpened
  split
  · split <;> rfl
  · rfl

theorem openedOrItemsChanged_fst (s : DState) :
    (_openedOrItemsChanged s).1 =
      { s with
          overlayOpened := some (ovTruthy s.opened && (s.loading || hasItems s.items)),
          emptyItems := false } := by
  unfold _openedOrItemsChanged
  by_cases h : hasItems s.items <;> simp [h, setOverlayOpened_fst]

theorem openedOrItemsChanged_inv (s : DState) : StateInv (_openedOrItemsChanged s).1 := by
  rw [openedOrItemsChanged_fst]
  exact ⟨rfl, rfl⟩

theorem reachable_inv {s : DState} (h : Reachable s) : StateInv s := by
  induction h with
  | init => exact ⟨rfl, rfl⟩
  | step op h ih =>
    cases op with
    | setOpened b =>
      simp only [applyOp]
      split
      · exact ih
      · exact openedOrItemsChanged_inv _
    | setLoading b =>
      simp only [applyOp]
      split
      · exact ih
      · exact openedOrItemsChanged_inv _
    | setItems v =>
      simp only [applyOp]
      split
      · exact ih
      · exact openedOrItemsChanged_inv _

theorem ovTruthy_eq_true_iff (x : Option Bool) : ovTruthy x = true ↔ x = some true := by
  cases x <;> simp [ovTruthy]

/-- A sample run: the host binds a one-element item array, then opens the
dropdown. -/
def sampleItemsOpenedState : DState :=
  (applyOp (applyOp initDState (DOp.setItems (some [JSValue.str "a"]))).1
    (DOp.setOpened true)).1

theorem sampleItemsOpenedState_reachable : Reachable sampleItemsOpenedState :=
  Reachable.step (DOp.setOpened true)
    (Reachable.step (DOp.setItems (some [JSValue.str "a"])) Reachable.init)

/-- When the observer recomputes `_overlayOpened` to a falsy value while the
dropdown's `opened` is falsy and the overlay was not open, no event fires. -/
theorem observer_events_silent (s : DState) (h1 : ovTruthy s.overlayOpened = false)
    (h4 : ovTruthy s.opened = false) :
    (_openedOrItemsChanged s).2 = [] := by
  unfold _openedOrItemsChanged setOverlayOpened _openedChanged
  by_cases h : hasItems s.items <;>
    cases hov : s.overlayOpened <;>
    simp_all [ovTruthy]

/-- When the overlay was open, the one-shot flag is clear, items are present
and `opened` has just turned falsy, the observer fires exactly the `-closed`
event. -/
theorem observer_events_close (s : DState) (h1 : s.overlayOpened = some true)
    (h2 : s.emptyItems = false) (h3 : hasItems s.items = true)
    (h4 : ovTruthy s.opened = false) :
    (_openedOrItemsChanged s).2 = [DEvent.dropdownClosed] := by
  unfold _openedOrItemsChanged setOverlayOpened _openedChanged
  simp [h1, h2, h3, h4]

/-- **C1**: for every reachable combination of the dropdown's inputs
(`opened`, `loading`, `_items`), the overlay's opened state
(`_overlayOpened`) is `true` iff `opened` is true and either `loading` is
true or the item list is non-empty.  Each property write runs the
`_openedOrItemsChanged` observer synchronously inside the same transition,
so the invariant holds in every state of the transition system — there is
no reachable intermediate state. -/
theorem c1_overlay_opened_iff (s : DState) (h : Reachable s) :
    s.overlayOpened = some true ↔
      s.opened = some true ∧ (s.loading = true ∨ hasItems s.items = true) := by
  have inv := (reachable_inv h).2
  rw [← ovTruthy_eq_true_iff s.overlayOpened, ← ovTruthy_eq_true_iff s.opened, inv]
  simp [Bool.and_eq_true, Bool.or_eq_true]

theorem c1_overlay_opened_iff_witness :
    Reachable sampleItemsOpenedState ∧
      (sampleItemsOpenedState.overlayOpened = some true ↔
        sampleItemsOpenedState.opened = some true ∧
          (sampleItemsOpenedState.loading = true ∨
            hasItems sampleItemsOpenedState.items = true)) :=
  ⟨sampleItemsOpenedState_reachable,
   c1_overlay_opened_iff sampleItemsOpenedState sampleItemsOpenedState_reachable⟩

/-- **C2**: from any reachable state with `opened = true`, setting `opened`
to `false` dispatches exactly one `vaadin-combo-box-dropdown-closed` event
when the item list was non-empty, and zero `-closed` events when the item
list was already empty and `loading` was false (the overlay was then
already closed, the auto-close having been suppressed by the one-shot
`__emptyItems` flag). -/
theorem c2_closed_event_policy (s : DState) (h : Reachable s)
    (ho : s.opened = some true) :
    (hasItems s.items = true →
      (applyOp s (DOp.setOpened false)).2 = [DEvent.dropdownClosed]) ∧
    (hasItems s.items = false → s.loading = false →
      (applyOp s (DOp.setOpened false)).2 = []) := by
  obtain ⟨hemp, hov⟩ := reachable_inv h
  have hne : ¬ s.opened = some false := by rw [ho]; simp
  constructor
  · intro hit
    have hovt : s.overlayOpened = some true := by
      apply (ovTruthy_eq_true_iff _).mp
      rw [hov, ho, hit]
      simp [ovTruthy]
    simp only [applyOp, if_neg hne]
    exact observer_events_close { s with opened := some false } hovt hemp hit rfl
  · intro hit hload
    have hovf : ovTruthy s.overlayOpened = false := by
      rw [hov, ho, hit, hload]
      simp [ovTruthy]
    simp only [applyOp, if_neg hne]
    exact observer_events_silent { s with opened := some false } hovf rfl

theorem c2_closed_event_policy_witness :
    Reachable sampleItemsOpenedState ∧ sampleItemsOpenedState.opened = some true ∧
      (applyOp sampleItemsOpenedState (DOp.setOpened false)).2 =
        [DEvent.dropdownClosed] :=
  ⟨sampleItemsOpenedState_reachable, rfl,
   (c2_closed_event_policy sampleItemsOpenedState sampleItemsOpenedState_reachable
      rfl).1 rfl⟩

/-- **C3**: for every item collection of size `N > 0` and every integer
`i`, `scrollToIndex(i)` lands on a valid index: an in-range `i` is kept, an
out-of-range `i` is clamped to the nearest valid index (`0` from below,
`N - 1` from above).  The embedded function is total, which is the model's
rendering of `never throws`. -/
theorem c3_scroll_to_index_clamps (N : Nat) (i : Int) (hN : 0 < N) :
    0 ≤ scrollToIndex N i ∧ scrollToIndex N i < N ∧
      (0 ≤ i → i < N → scrollToIndex N i = i) ∧
      (i < 0 → scrollToIndex N i = 0) ∧
      ((N : Int) ≤ i → scrollToIndex N i = N - 1) := by
  unfold scrollToIndex
  rw [if_neg (by omega)]
  refine ⟨?_, ?_, ?_, ?_, ?_⟩ <;> omega

theorem c3_scroll_to_index_clamps_witness :
    0 < 5 ∧
      (0 ≤ scrollToIndex 5 9 ∧ scrollToIndex 5 9 < 5 ∧
        (0 ≤ (9 : Int) → (9 : Int) < 5 → scrollToIndex 5 9 = 9) ∧
        ((9 : Int) < 0 → scrollToIndex 5 9 = 0) ∧
        ((5 : Int) ≤ 9 → scrollToIndex 5 9 = 5 - 1)) :=
  ⟨by decide, c3_scroll_to_index_clamps 5 9 (by decide)⟩

/-- **C4**: when `_setOverlayWidth` runs with a position target present,
the overlay gets the width-override custom property when its computed
value is non-empty (and that value is then the effective width); when the
computed value is the empty string, the override is removed from the
overlay and the effective width falls back to the position target's
measured `clientWidth`. -/
theorem c4_overlay_width (env : WidthEnv) (ov : OverlayStyle) (cw : Nat)
    (h : env.positionTargetWidth = some cw) :
    (env.customWidth ≠ "" →
      (_setOverlayWidth env ov).widthOverride = some env.customWidth ∧
      effectiveWidth (_setOverlayWidth env ov) = some env.customWidth) ∧
    (env.customWidth = "" →
      (_setOverlayWidth env ov).widthOverride = none ∧
      effectiveWidth (_setOverlayWidth env ov) = some (toString cw ++ "px")) := by
  unfold _setOverlayWidth effectiveWidth
  rw [h]
  constructor
  · intro hcw
    simp [hcw]
  · intro hcw
    simp [hcw]

theorem c4_overlay_width_witness :
    ({ positionTargetWidth := some 120, customWidth := "300px" } : WidthEnv).positionTargetWidth
        = some 120 ∧
      (_setOverlayWidth ⟨some 120, "300px"⟩ {}).widthOverride = some "300px" ∧
      effectiveWidth (_setOverlayWidth ⟨some 120, "300px"⟩ {}) = some "300px" :=
  ⟨rfl, (c4_overlay_width ⟨some 120, "300px"⟩ {} 120 rfl).1 (by decide)⟩

/-- **C5**: the dropdown re-dispatches every scroller event verbatim — the
relayed sequence has the same event types, the identical `detail` payloads
and the same order as the scroller's sequence. -/
theorem c5_forward_verbatim (events : List ScrollerEvent) :
    forwardAll events = events := by
  unfold forwardAll _forwardScrollerEvent
  exact List.map_id events

/-- **C7**: with the scroller absent, `_scrollIntoView` does nothing (no
scroller state comes into being, no fault is signalled); with the position
target absent, `_setOverlayWidth` leaves the overlay style exactly as it
was. -/
theorem c7_absent_collaborators_noop (i : Int) (env : WidthEnv)
    (ov : OverlayStyle) (h : env.positionTargetWidth = none) :
    _scrollIntoView none i = none ∧ _setOverlayWidth env ov = ov := by
  refine ⟨rfl, ?_⟩
  unfold _setOverlayWidth
  rw [h]

theorem c7_absent_collaborators_noop_witness :
    ({ positionTargetWidth := none, customWidth := "" } : WidthEnv).positionTargetWidth
        = none ∧
      (_scrollIntoView none 3 = none ∧
        _setOverlayWidth ⟨none, ""⟩ {} = ({} : OverlayStyle)) :=
  ⟨rfl, c7_absent_collaborators_noop 3 ⟨none, ""⟩ {} rfl⟩

/-- **C8**: `_focusedIndex` starts at `-1` (no item focused); the computed
`focusedItem` is `undefined` for every negative `_focusedIndex`, and for
every `_focusedIndex ≥ 0` it is the element of `_items` at that index
(`undefined` past the end, as a JS array read). -/
theorem c8_focused_index (items : List JSValue) (i : Int) :
    initDState.focusedIndex = -1 ∧
      (i < 0 → _getFocusedItem items i = JSValue.undefined) ∧
      (0 ≤ i → _getFocusedItem items i = (items.get? i.toNat).getD JSValue.undefined) := by
  refine ⟨rfl, ?_, ?_⟩
  · intro h
    unfold _getFocusedItem
    rw [if_neg (by omega)]
  · intro h
    unfold _getFocusedItem
    rw [if_pos h]
    cases items.get? i.toNat <;> rfl

theorem c8_focused_index_witness :
    (0 : Int) ≤ 1 ∧
      _getFocusedItem [JSValue.str "x", JSValue.str "y"] 1 =
        (([JSValue.str "x", JSValue.str "y"].get? (1 : Int).toNat).getD JSValue.undefined) :=
  ⟨by decide, (c8_focused_index [JSValue.str "x", JSValue.str "y"] 1).2.2 (by decide)⟩

/-- **C9**: whenever a property bag is pushed to the internal scroller with
the dropdown's `opened` falsy, the bag's `items` is the empty array
regardless of the dropdown's `_items`; the scroller receives the real
`_items` collection only while `opened` is truthy. -/
theorem c9_scroller_items_gated (present : Bool) (items : Option (List JSValue))
    (opened : Option Bool) (loading : Bool) (fi : Int) (props : ScrollerProps)
    (h : updateScroller present items opened loading fi = some props) :
    (ovTruthy opened = false → props.items = some []) ∧
    (ovTruthy opened = true → props.items = items) := by
  cases present
  · simp [updateScroller] at h
  · simp only [updateScroller, if_true, Option.some.injEq] at h
    subst h
    constructor <;> intro hx <;> simp [hx]

theorem c9_scroller_items_gated_witness :
    updateScroller true (some [JSValue.str "a"]) (some false) false (-1) =
        some { items := some [], opened := some false, loading := false,
               focusedIndex := -1 } ∧
      ({ items := some [], opened := some false, loading := false,
         focusedIndex := -1 } : ScrollerProps).items = some [] :=
  ⟨rfl,
   (c9_scroller_items_gated true (some [JSValue.str "a"]) (some false) false (-1)
      _ rfl).1 rfl⟩

/-- **C6** counterexample: the claim predicts string coercion
(`item.toString()`, i.e. `"0"`) for the present, non-null item `0` whose
label-path value is undefined, but `getItemLabel` tests the item for JS
truthiness — not for presence — before coercing, so the falsy item `0`
yields the empty string instead. -/
theorem c6_get_item_label_counterexample :
    polyGet "label" (JSValue.num 0) = JSValue.undefined ∧
      getItemLabel "label" none (JSValue.num 0) = JSValue.str "" ∧
      JSValue.str "" ≠ JSValue.str (jsToString (JSValue.num 0)) :=
  ⟨rfl, rfl, by simp only [jsToString, ne_eq, JSValue.str.injEq]; decide⟩

/-- **C6** (amended): `getItemLabel` returns the value found at the
effective label path when that value is neither `undefined` nor `null`;
otherwise it falls back to string coercion of the item when the item is
*truthy*, and returns the empty string when the item is falsy (absent —
`undefined`/`null` — or a falsy value such as `0`, `false` or `""`).  All
embedded functions are total: no item shape makes the code raise. -/
theorem c6_get_item_label_amended (prop : String) (arg : Option String)
    (item : JSValue) :
    (truthy item = false → getItemLabel prop arg item = JSValue.str "") ∧
    (truthy item = true → effLabelPath prop arg ≠ "" →
      polyGet (effLabelPath prop arg) item ≠ JSValue.undefined →
      polyGet (effLabelPath prop arg) item ≠ JSValue.null →
      getItemLabel prop arg item = polyGet (effLabelPath prop arg) item) ∧
    (truthy item = true →
      (effLabelPath prop arg = "" ∨
        polyGet (effLabelPath prop arg) item = JSValue.undefined ∨
        polyGet (effLabelPath prop arg) item = JSValue.null) →
      getItemLabel prop arg item = JSValue.str (jsToString item)) := by
  refine ⟨?_, ?_, ?_⟩
  · intro h
    unfold getItemLabel
    simp [h]
  · intro h hp hnu hnn
    unfold getItemLabel
    cases hl : polyGet (effLabelPath prop arg) item <;>
      simp_all [h, hp, hl]
  · intro h hcase
    unfold getItemLabel
    rcases hcase with hp | hu | hn
    · simp [h, hp]
    · simp [h, hu]
    · by_cases hp' : effLabelPath prop arg = ""
      · simp [h, hp']
      · simp [h, hp', hn]

theorem c6_get_item_label_amended_witness :
    truthy (JSValue.obj [("label", JSValue.str "Foo")] "x") = true ∧
      getItemLabel "label" none (JSValue.obj [("label", JSValue.str "Foo")] "x") =
        polyGet (effLabelPath "label" none)
          (JSValue.obj [("label", JSValue.str "Foo")] "x") := by
  have hpg : polyGet (effLabelPath "label" none)
      (JSValue.obj [("label", JSValue.str "Foo")] "x") = JSValue.str "Foo" := rfl
  refine ⟨rfl, ?_⟩
  exact (c6_get_item_label_amended "label" none _).2.1 rfl (by decide)
    (by rw [hpg]; simp) (by rw [hpg]; simp)

/-! ## Lemmas about the `indexOfLabel` loop -/

theorem indexOfLabelLoop_no_match (prop t : String) (l : List JSValue)
    (h : ∀ it ∈ l, lowerLabelOf prop it ≠ t) (i : Nat) :
    indexOfLabelLoop prop t i l = -1 := by
  induction l generalizing i with
  | nil => rfl
  | cons a as ih =>
    unfold indexOfLabelLoop
    rw [if_neg (by simpa using h a (List.mem_cons_self a as))]
    exact ih (fun it hit => h it (List.mem_cons_of_mem a hit)) (i + 1)

theorem indexOfLabelLoop_first_match (prop t : String) (l : List JSValue) :
    ∀ (k i : Nat) (it : JSValue), l.get? i = some it →
      lowerLabelOf prop it = t →
      (∀ j : Nat, j < i → ∀ jt, l.get? j = some jt → lowerLabelOf prop jt ≠ t) →
      indexOfLabelLoop prop t k l = (k : Int) + i := by
  induction l with
  | nil =>
    intro k i it hi
    simp at hi
  | cons a as ih =>
    intro k i it hi hm hmin
    cases i with
    | zero =>
      have ha : a = it := by simpa using hi
      unfold indexOfLabelLoop
      rw [if_pos (by simp [ha, hm])]
      simp
    | succ n =>
      have ha : lowerLabelOf prop a ≠ t := hmin 0 (Nat.succ_pos n) a rfl
      unfold indexOfLabelLoop
      rw [if_neg (by simpa using ha)]
      have hrec := ih (k + 1) n it (by simpa using hi) hm
        (fun j hj jt hjt => hmin (j + 1) (Nat.succ_lt_succ hj) jt (by simpa using hjt))
      rw [hrec]
      push_cast
      ring

theorem indexOfLabel_some (prop : String) (l : List JSValue) (label : JSValue) :
    indexOfLabel prop (some l) label =
      if truthy label then indexOfLabelLoop prop (jsToLower (jsToString label)) 0 l
      else -1 := rfl

/-- **C10**: `indexOfLabel` returns `-1` when `_items` is absent, when the
label is falsy, or when no item's resolved label matches the given label
case-insensitively; otherwise it returns the smallest index whose item's
resolved label (via `getItemLabel` at the configured label path) equals the
given label after lower-casing both sides. -/
theorem c10_index_of_label_spec (prop : String) (items : Option (List JSValue))
    (label : JSValue) :
    (items = none → indexOfLabel prop items label = -1) ∧
    (truthy label = false → indexOfLabel prop items label = -1) ∧
    (∀ l, items = some l → truthy label = true →
      ((∀ it ∈ l, lowerLabelOf prop it ≠ jsToLower (jsToString label)) →
        indexOfLabel prop items label = -1) ∧
      (∀ (i : Nat) (it : JSValue), l.get? i = some it →
        lowerLabelOf prop it = jsToLower (jsToString label) →
        (∀ j : Nat, j < i → ∀ jt, l.get? j = some jt →
          lowerLabelOf prop jt ≠ jsToLower (jsToString label)) →
        indexOfLabel prop items label = (i : Int))) := by
  refine ⟨?_, ?_, ?_⟩
  · intro h
    subst h
    rfl
  · intro h
    unfold indexOfLabel
    cases items <;> simp [h]
  · intro l hl ht
    subst hl
    constructor
    · intro h
      rw [indexOfLabel_some, if_pos ht]
      exact indexOfLabelLoop_no_match prop _ l h 0
    · intro i it hi hm hmin
      rw [indexOfLabel_some, if_pos ht]
      have := indexOfLabelLoop_first_match prop _ l 0 i it hi hm hmin
      simpa using this

theorem c10_index_of_label_spec_witness :
    truthy (JSValue.str "B") = true ∧
      indexOfLabel "label"
          (some [JSValue.str "A", JSValue.str "b", JSValue.str "B"])
          (JSValue.str "B") = (1 : Int) := by
  refine ⟨rfl, ?_⟩
  refine ((c10_index_of_label_spec "label"
      (some [JSValue.str "A", JSValue.str "b", JSValue.str "B"])
      (JSValue.str "B")).2.2
      [JSValue.str "A", JSValue.str "b", JSValue.str "B"] rfl (by decide)).2
    1 (JSValue.str "b") rfl (by decide) ?_
  intro j hj jt hjt
  have hj0 : j = 0 := by omega
  subst hj0
  have hjt' : jt = JSValue.str "A" := by simpa using hjt.symm
  subst hjt'
  decide

end ComboBoxDropdown
